import Mathlib

/-!
Verification of the bulk-ingestion / normalization pipeline of the
calificacion-tributaria backend (src/backend/calificaciones).

Shallow embedding conventions:
* Python `Decimal` values are modelled as exact rationals (`ℚ`).  All
  Decimal operations used by the code under verification (addition,
  comparison) are exact in Python as well; Decimal division rounds to 28
  significant digits in Python and is modelled as exact division here
  (a difference far below every tolerance appearing in the spec).
* Python strings are Lean `String`s; where character-level reasoning is
  needed we work on `String.data : List Char`.  `str.lower` / `str.upper`
  / `str.strip` are modelled on the ASCII letters and the ASCII whitespace
  set, which covers every table entry and input the code manipulates.
* Pandas / file-system / database I/O is external: a loaded dataframe is
  a value of type `Df`, the relational store is an explicit list of
  records threaded through the functions, and clock readings
  (`timezone.now()`) are parameters.
* Fallible Python code (raising / catching exceptions) is modelled with
  `Except String`.
-/

-- Batteries marks the core `Rat` arithmetic `@[irreducible]`, which makes
-- `decide` stall on concrete rational computations; restoring the default
-- reducibility lets the claims be settled on concrete inputs by evaluation.
attribute [local semireducible] Rat.add Rat.mul Rat.sub Rat.inv Rat.ofScientific

/-- A dynamically typed cell value as produced by pandas: `None`, float
`NaN`, a float, an int, or a string.  A `float q` carries the rational
value of the shortest decimal representation of the float, i.e. the value
of `Decimal(str(v))`, which is the only way the pipeline consumes floats. -/
inductive PyVal where
  | none : PyVal
  | nan : PyVal
  | float : ℚ → PyVal
  | int : ℤ → PyVal
  | str : String → PyVal
deriving DecidableEq, Repr

/-- Python `str()` of a cell value, as used by the row loop.  Only string
cells reach the paths our theorems exercise; the numeric renderings are
schematic (they preserve "non-empty after strip"). -/
def pyStrVal : PyVal → String
  | PyVal.none => "None"
  | PyVal.nan => "nan"
  | PyVal.float _ => "float"
  | PyVal.int n => toString n
  | PyVal.str s => s

/-- ASCII whitespace recognised by Python `str.strip()`. -/
def isSpacePy (c : Char) : Bool :=
  c = ' ' ∨ c = '\t' ∨ c = '\n' ∨ c = '\r' ∨ c = '\x0b' ∨ c = '\x0c'

/-- Uppercase/lowercase ASCII letter pairs, the case mapping used by the
source's `.lower()` / `.upper()` calls (all of its tables are ASCII). -/
def parejasMayusculas : List (Char × Char) :=
  [('A', 'a'), ('B', 'b'), ('C', 'c'), ('D', 'd'), ('E', 'e'), ('F', 'f'),
   ('G', 'g'), ('H', 'h'), ('I', 'i'), ('J', 'j'), ('K', 'k'), ('L', 'l'),
   ('M', 'm'), ('N', 'n'), ('O', 'o'), ('P', 'p'), ('Q', 'q'), ('R', 'r'),
   ('S', 's'), ('T', 't'), ('U', 'u'), ('V', 'v'), ('W', 'w'), ('X', 'x'),
   ('Y', 'y'), ('Z', 'z')]

/-- `str.lower` on one character. -/
def pyLowerChar (c : Char) : Char :=
  match parejasMayusculas.find? (fun p => p.fst = c) with
  | some p => p.snd
  | Option.none => c

/-- `str.upper` on one character. -/
def pyUpperChar (c : Char) : Char :=
  match parejasMayusculas.find? (fun p => p.snd = c) with
  | some p => p.fst
  | Option.none => c

/-- `str.lower` on a character list. -/
def pyLowerL (l : List Char) : List Char := l.map pyLowerChar

/-- `str.upper` on a character list. -/
def pyUpperL (l : List Char) : List Char := l.map pyUpperChar

/-- `str.strip()` on a character list: drop leading and trailing
whitespace. -/
def pyStripL (l : List Char) : List Char :=
  ((l.dropWhile isSpacePy).reverse.dropWhile isSpacePy).reverse

/-- `str.strip()` on a string. -/
def pyStrip (s : String) : String := String.mk (pyStripL s.data)

/-- `s.strip().lower()` on a string (the header normalizer's first step). -/
def pyStripLower (s : String) : String := String.mk (pyStripL (pyLowerL s.data))

/-- Substring containment (`needle in hay` for Python strings), on
character lists. -/
def containsSub (hay needle : List Char) : Bool :=
  match hay with
  | [] => needle.isPrefixOf hay
  | _ :: t => needle.isPrefixOf hay || containsSub t needle

-- =====================================================================
-- Header normalizer (services.py::_normalizar_header)
-- =====================================================================

/-- The `reemplazos` synonym table of `_normalizar_header`, in source
order.  (The duplicate-free Python dict maps `valor_actualizado` to
itself, reproduced faithfully.) -/
def reemplazos : List (String × String) :=
  [("id_cliente", "identificador_cliente"),
   ("idcliente", "identificador_cliente"),
   ("cliente", "identificador_cliente"),
   ("identificador", "identificador_cliente"),
   ("rut", "identificador_cliente"),
   ("nit", "identificador_cliente"),
   ("ruc", "identificador_cliente"),
   ("secuencia_eventos", "secuencia_evento"),
   ("secuenciaeventos", "secuencia_evento"),
   ("secuencia", "secuencia_evento"),
   ("instrumento_financiero", "instrumento"),
   ("cod_instrumento", "instrumento"),
   ("codigo_instrumento", "instrumento"),
   ("ejercicio_fiscal", "ejercicio"),
   ("anio", "ejercicio"),
   ("año", "ejercicio"),
   ("anio_ejercicio", "ejercicio"),
   ("mercado_valor", "mercado"),
   ("mercado_valores", "mercado"),
   ("mercado_de_valores", "mercado"),
   ("estado_calificacion", "estado"),
   ("estado_ct", "estado"),
   ("valor_hist", "valor_historico"),
   ("valor_h", "valor_historico"),
   ("valorhist", "valor_historico"),
   ("valor_actualizado", "valor_actualizado"),
   ("valor_act", "valor_actualizado"),
   ("valoract", "valor_actualizado")]

/-- Dict lookup `reemplazos[nombre]`. -/
def buscarReemplazo (nombre : String) : Option String :=
  (reemplazos.find? (fun p => p.fst = nombre)).map Prod.snd

/-- The factor-column synonyms tried for index `i` (the `patrones` list in
the source: `factor_i`, `factor_i` without underscore, `f i`,
`factor i`, `fac_i`). -/
def patronesFactor (i : Nat) : List String :=
  ["factor_" ++ toString i,
   "factor" ++ toString i,
   "f" ++ toString i,
   "factor" ++ toString i,
   "fac_" ++ toString i]

/-- The factor indices 8..19 scanned by `_normalizar_header`. -/
def indicesFactor : List Nat := List.range' 8 12

/-- `_normalizar_header` (services.py lines 104-156): empty input maps to
the empty string; otherwise strip+lowercase, look the result up in the
synonym table, then in the factor-column patterns, and finally fall back
to the stripped lowercase name itself. -/
def normalizar_header (nombre_columna : String) : String :=
  if nombre_columna = "" then ""
  else
    let nombre := pyStripLower nombre_columna
    match buscarReemplazo nombre with
    | some objetivo => objetivo
    | Option.none =>
      match indicesFactor.find? (fun i => (patronesFactor i).contains nombre) with
      | some i => "factor_" ++ toString i
      | Option.none => nombre

-- =====================================================================
-- Decimal normalizer (services.py::_normalizar_valor_decimal)
-- =====================================================================

/-- Numeric value of a digit list (most significant first). -/
def digitsToNat (ds : List Char) : Nat :=
  ds.foldl (fun a c => 10 * a + (c.toNat - 48)) 0

/-- The finite-numeral fragment of Python `Decimal(<string>)`:
`[sign] digits [. digits] [(e|E) [sign] digits]`, requiring at least one
mantissa digit and no residue.  (`Decimal` additionally accepts
`NaN` / `Infinity` tokens; none of the inputs of the verified paths
produce them, and they are not modelled.) -/
def pyDecimalOfChars (cs : List Char) : Option ℚ :=
  let sgnRest : ℚ × List Char :=
    match cs with
    | '+' :: r => (1, r)
    | '-' :: r => (-1, r)
    | r => (1, r)
  let ip := sgnRest.snd.takeWhile Char.isDigit
  let rest1 := sgnRest.snd.dropWhile Char.isDigit
  let fpRest : List Char × List Char :=
    match rest1 with
    | '.' :: r => (r.takeWhile Char.isDigit, r.dropWhile Char.isDigit)
    | r => ([], r)
  let fp := fpRest.fst
  if ip = [] ∧ fp = [] then Option.none
  else
    let mant : ℚ := (digitsToNat ip : ℚ) + (digitsToNat fp : ℚ) / (10 : ℚ) ^ fp.length
    match fpRest.snd with
    | [] => some (sgnRest.fst * mant)
    | e :: r =>
      if e = 'e' ∨ e = 'E' then
        let esgnRest : ℤ × List Char :=
          match r with
          | '+' :: rr => (1, rr)
          | '-' :: rr => (-1, rr)
          | rr => (1, rr)
        let ed := esgnRest.snd.takeWhile Char.isDigit
        if ed = [] ∨ esgnRest.snd.dropWhile Char.isDigit ≠ [] then Option.none
        else some (sgnRest.fst * mant * (10 : ℚ) ^ (esgnRest.fst * (digitsToNat ed : ℤ)))
      else Option.none

/-- `_normalizar_valor_decimal` (services.py lines 217-241).  `None` and
NaN map to `None`; floats and ints convert exactly; strings are stripped
(empty → `None`), then spaces and periods are removed and commas become
periods before the `Decimal` parse; a parse failure is caught and mapped
to `None` (the function never raises). -/
def normalizar_valor_decimal : PyVal → Option ℚ
  | PyVal.none => Option.none
  | PyVal.nan => Option.none
  | PyVal.float q => some q
  | PyVal.int n => some (n : ℚ)
  | PyVal.str s =>
    let t := pyStripL s.data
    if t = [] then Option.none
    else
      let s1 := t.filter (fun c => c ≠ ' ')
      let s2 := s1.filter (fun c => c ≠ '.')
      let s3 := s2.map (fun c => if c = ',' then '.' else c)
      pyDecimalOfChars s3

-- =====================================================================
-- Country detector (services.py::DetectorPaisTributario)
-- =====================================================================

/-- Character class `[0-9kK]` ending the Chilean RUT regex. -/
def esDigitoOK (c : Char) : Bool := c.isDigit || c = 'k' || c = 'K'

/-- Anchored match of the tail `\.\d{3}\.\d{3}-[0-9kK]` of the Chilean
RUT regex at the head of the list (the remainder of the list is
unconstrained, as for `re.search`). -/
def rutTailAt : List Char → Bool
  | '.' :: a :: b :: c :: '.' :: d :: e :: f :: '-' :: g :: _ =>
    a.isDigit && b.isDigit && c.isDigit && d.isDigit && e.isDigit && f.isDigit && esDigitoOK g
  | _ => false

/-- Anchored match of `\d{1,2}\.\d{3}\.\d{3}-[0-9kK]` at the head of the
list: one or two leading digits followed by the tail. -/
def rutAt : List Char → Bool
  | d1 :: rest =>
    d1.isDigit &&
      (rutTailAt rest ||
        (match rest with
         | d2 :: rest2 => d2.isDigit && rutTailAt rest2
         | [] => false))
  | [] => false

/-- `n` consecutive digits at the head of the list. -/
def digitosAt (n : Nat) (l : List Char) : Bool :=
  (l.take n).length = n && (l.take n).all Char.isDigit

/-- `re.search`: some suffix of the text matches the anchored pattern. -/
def buscaEn (f : List Char → Bool) : List Char → Bool
  | [] => f []
  | c :: t => f (c :: t) || buscaEn f t

/-- `re.search(r"\d{1,2}\.\d{3}\.\d{3}-[0-9kK]", texto)` — the CHL regex. -/
def matchRegexCHL (t : List Char) : Bool := buscaEn rutAt t

/-- `re.search(r"\d{5,10}", texto)` — the COL regex (unanchored, so it
matches exactly when five consecutive digits occur somewhere). -/
def matchRegexCOL (t : List Char) : Bool := buscaEn (digitosAt 5) t

/-- `re.search(r"\d{11}", texto)` — the PER regex. -/
def matchRegexPER (t : List Char) : Bool := buscaEn (digitosAt 11) t

/-- Keyword lists of `DetectorPaisTributario.PATRONES`, in source order. -/
def keywordsCHL : List String := ["CHILE", "SANTIAGO", "RUT"]

def keywordsCOL : List String := ["COLOMBIA", "BOGOTA", "NIT"]

def keywordsPER : List String := ["PERU", "LIMA", "RUC"]

/-- Score of one country: `score_regex` if its regex matches the text,
plus `score_keyword` for each keyword contained in the text (the loop of
lines 61-68). -/
def scorePais (regexHit : Bool) (wRegex : ℚ) (kws : List String) (wKw : ℚ)
    (t : List Char) : ℚ :=
  (if regexHit then wRegex else 0) +
    kws.foldl (fun s kw => if containsSub t kw.data then s + wKw else s) 0

/-- The concatenated, uppercased row text of `detectar_pais` (line 52-54):
`" ".join(str(v) for v in fila.values() if v is not None).upper()`. -/
def textoDeFila (fila : List PyVal) : List Char :=
  pyUpperL ((" ".intercalate
    ((fila.filter (fun v => v ≠ PyVal.none)).map pyStrVal)).data)

/-- CHL aggregate score on a text. -/
def puntajeCHL (t : List Char) : ℚ :=
  scorePais (matchRegexCHL t) (7/10) keywordsCHL (3/10) t

/-- COL aggregate score on a text. -/
def puntajeCOL (t : List Char) : ℚ :=
  scorePais (matchRegexCOL t) (6/10) keywordsCOL (4/10) t

/-- PER aggregate score on a text. -/
def puntajePER (t : List Char) : ℚ :=
  scorePais (matchRegexPER t) (6/10) keywordsPER (4/10) t

/-- Scores of the three countries on a text, in `PATRONES` order. -/
def scoresPaises (texto : List Char) : List (String × ℚ) :=
  [("CHL", puntajeCHL texto), ("COL", puntajeCOL texto), ("PER", puntajePER texto)]

/-- The best-score selection loop (lines 70-75): strictly greater scores
displace the running best, starting from `(None, 0.0)`. -/
def mejorPuntaje (l : List (String × ℚ)) : Option String × ℚ :=
  l.foldl (fun acc cs => if cs.snd > acc.snd then (some cs.fst, cs.snd) else acc)
    (Option.none, 0)

/-- `DetectorPaisTributario.detectar_pais` (services.py lines 50-80). -/
def detectar_pais (fila : List PyVal) : Option String × ℚ :=
  let texto := textoDeFila fila
  if pyStripL texto = [] then (Option.none, 0)
  else
    let mejor := mejorPuntaje (scoresPaises texto)
    if mejor.snd < 3/10 then (Option.none, mejor.snd) else mejor

-- =====================================================================
-- PDF parser (services.py::_parse_pdf_text_to_rows)
-- =====================================================================

/-- Python `str.split(sep)` for a one-character separator, on character
lists: the list of (possibly empty) chunks between occurrences of `sep`. -/
def pySplitChar (sep : Char) : List Char → List (List Char)
  | [] => [[]]
  | c :: t =>
    let r := pySplitChar sep t
    if c = sep then [] :: r
    else
      match r with
      | [] => [[c]]
      | h :: t2 => (c :: h) :: t2

/-- Python `str.split(sep)` on strings. -/
def pySplit (sep : Char) (s : String) : List String :=
  (pySplitChar sep s.data).map String.mk

/-- `_parse_pdf_text_to_rows` (services.py lines 83-101), with the
pdfplumber I/O abstracted to the list of per-page extracted texts: every
line of every page that contains a literal `|` is split on `|` with each
cell stripped; all other lines contribute nothing. -/
def parse_pdf_text_to_rows (pages : List String) : List (List String) :=
  pages.foldl
    (fun rows text =>
      (pySplit '\n' text).foldl
        (fun rows line =>
          if line.data.contains '|' then
            rows ++ [(pySplit '|' line).map pyStrip]
          else rows)
        rows)
    []

-- =====================================================================
-- Factor/Monto classifier (services.py lines 282-323, 468-478)
-- =====================================================================

/-- The running total `total += v` over the non-`None` factor values,
as computed by `_es_modo_monto` / `_normalizar_factores_a_1` /
lines 474-477 of the FACTOR loop. -/
def suma_opcionales (fs : List (Option ℚ)) : ℚ :=
  fs.foldl (fun t v => match v with | Option.none => t | some x => t + x) 0

/-- `_es_modo_monto` (services.py lines 282-298): amounts are suspected
if any single value exceeds 1 (the early return inside the loop) or the
total of the non-`None` values exceeds 1.0001. -/
def es_modo_monto (fs : List (Option ℚ)) : Bool :=
  fs.any (fun v => match v with | some x => x > 1 | Option.none => false) ||
    suma_opcionales fs > 10001/10000

/-- `_normalizar_factores_a_1` (services.py lines 301-323): all zero when
the total is 0, otherwise each non-`None` value divided by the total and
`None` mapped to 0. -/
def normalizar_factores_a_1 (fs : List (Option ℚ)) : List ℚ :=
  let total := suma_opcionales fs
  if total = 0 then fs.map (fun _ => 0)
  else fs.map (fun v => match v with | Option.none => 0 | some x => x / total)

/-- Lines 468-478 of `procesar_archivo_carga_factores` (the per-row
classification the spec calls `classify_and_normalize`): in monto mode
the factors are rescaled and `factor_actualizacion` is 1; otherwise the
factors pass through and `factor_actualizacion` is their sum. -/
def classify_and_normalize (fs : List (Option ℚ)) : List (Option ℚ) × ℚ :=
  if es_modo_monto fs then ((normalizar_factores_a_1 fs).map some, 1)
  else (fs, suma_opcionales fs)

-- =====================================================================
-- Data model (models.py::CalificacionTributaria) and save semantics
-- =====================================================================

/-- An embedded `CalificacionTributaria` row.  `secuencia_evento` is the
nullable CharField, with `""` standing for both NULL and the empty string
(the source treats the two identically: `if not self.secuencia_evento`,
`.exclude(isnull).exclude(exact="")`).  `pais` and `corredor` are the
foreign keys by natural code.  `factores` lists `factor_8..factor_19` in
order. -/
structure Calificacion where
  pk : Nat
  corredor : String
  identificador_cliente : String
  instrumento : String
  ejercicio : Option Nat
  mercado : String
  secuencia_evento : String
  pais : Option String
  estado : String
  valor_historico : ℚ
  valor_actualizado : ℚ
  factor_actualizacion : ℚ
  factores : List ℚ
deriving DecidableEq, Repr

/-- `CalificacionTributaria.suma_factores` (models.py lines 247-262): the
sum of the 12 factor fields (each `or Decimal("0")`; the fields are
non-null here, so this is the plain sum). -/
def sumaFactores (c : Calificacion) : ℚ := c.factores.sum

/-- The `ESTADO_CHOICES` of the model (models.py lines 171-176). -/
def estadoChoices : List String := ["pendiente", "aprobada", "rechazada"]

/-- Python `str.isdigit` restricted to ASCII digits: non-empty and all
digits. -/
def esDigitos (s : String) : Bool := s.data ≠ [] && s.data.all Char.isDigit

/-- `int(s)` on a digit string. -/
def natDeDigitos (s : String) : Nat := digitsToNat s.data

/-- Django `DecimalValidator(max_digits=7, decimal_places=5)` on the value
of a factor field: at most 5 decimal places and at most 2 integer digits.
(The validator inspects the Decimal's digit tuple; all Decimals reaching
the factor fields in the verified paths are in minimal form, where this
value-level check coincides.) -/
def validaDecimal_7_5 (q : ℚ) : Bool := (q * 100000).den = 1 && |q| < 100

/-- The model-level field validation run by `full_clean` that the
pipeline can trip: the `choices` check on `estado` and
`DecimalValidator(7, 5)` on each factor field.  Validations that no
claim's path can reach (max_length of the char fields, etc.) are not
modelled. -/
def clean_fields_calificacion (c : Calificacion) : Except String Unit :=
  if ¬ estadoChoices.contains c.estado then
    Except.error ("El valor " ++ c.estado ++ " no es una opcion valida para estado.")
  else if ¬ c.factores.all (fun q => validaDecimal_7_5 q) then
    Except.error "Asegurese de que no haya mas de 5 decimales en los factores."
  else Except.ok ()

/-- `CalificacionTributaria.clean` (models.py lines 264-276): the factor
sum must not exceed 1, and a non-empty `secuencia_evento` must be numeric
and at least 10000. -/
def clean_calificacion (c : Calificacion) : Except String Unit :=
  if sumaFactores c > 1 then
    Except.error "La suma de factores no puede ser mayor a 1."
  else if c.secuencia_evento ≠ "" then
    if ¬ esDigitos c.secuencia_evento then Except.error "Debe ser numerica."
    else if natDeDigitos c.secuencia_evento < 10000 then
      Except.error "Debe ser mayor o igual a 10000."
    else Except.ok ()
  else Except.ok ()

/-- `Model.full_clean`: field validation, then `clean`. -/
def full_clean_calificacion (c : Calificacion) : Except String Unit :=
  match clean_fields_calificacion c with
  | Except.error e => Except.error e
  | Except.ok _ => clean_calificacion c

/-- The numeric event sequences currently in the ledger: the queryset of
`save` excludes NULL and `""` and casts the rest to integers.  The SQL
cast is only well-defined on digit strings (which the model invariant
guarantees); non-digit strings are excluded here. -/
def secuenciasNumericas (ledger : List Calificacion) : List Nat :=
  ledger.filterMap (fun c =>
    if c.secuencia_evento ≠ "" ∧ esDigitos c.secuencia_evento then
      some (natDeDigitos c.secuencia_evento)
    else Option.none)

/-- The `max_seq + 1` computation of `save` (models.py lines 280-287).
`Max` over an empty queryset is SQL NULL and `max_seq or 9999` also
treats an (unreachable-by-`save`) maximum of 0 as falsy, so both cases
collapse to 9999 before the increment. -/
def siguienteSecuencia (ledger : List Calificacion) : String :=
  let m := (secuenciasNumericas ledger).foldl max 0
  let m' := if m = 0 then 9999 else m
  toString (m' + 1)

/-- The sequence-assignment step of `save`: an empty (NULL/`""`)
`secuencia_evento` receives `siguienteSecuencia`; anything else is left
untouched. -/
def asignar_secuencia (ledger : List Calificacion) (c : Calificacion) : Calificacion :=
  if c.secuencia_evento = "" then
    { c with secuencia_evento := siguienteSecuencia ledger }
  else c

/-- SQL write of a validated row: replace the record with the same pk, or
append it. -/
def escribirPorPk (ledger : List Calificacion) (c : Calificacion) : List Calificacion :=
  if ledger.any (fun x => x.pk = c.pk) then
    ledger.map (fun x => if x.pk = c.pk then c else x)
  else ledger ++ [c]

/-- `CalificacionTributaria.save` (models.py lines 278-290): assign the
sequence if missing, run `full_clean`, and only then write.  A validation
failure surfaces as the error and leaves the ledger untouched. -/
def save_calificacion (ledger : List Calificacion) (c : Calificacion) :
    List Calificacion × Except String Calificacion :=
  let c' := asignar_secuencia ledger c
  match full_clean_calificacion c' with
  | Except.error e => (ledger, Except.error e)
  | Except.ok _ => (escribirPorPk ledger c', Except.ok c')

-- =====================================================================
-- User-triggered normalize action (api.py::calcular_factores)
-- =====================================================================

/-- Round-half-even of a rational to an integer (`Decimal.quantize` with
the default `ROUND_HALF_EVEN`). -/
def redondeoHalfEven (x : ℚ) : ℤ :=
  let f := ⌊x⌋
  let r := x - f
  if r < 1/2 then f else if r > 1/2 then f + 1 else if 2 ∣ f then f else f + 1

/-- `bruto.quantize(Decimal("0.0001"))`: round to 4 decimal places,
half-even. -/
def quantize4 (q : ℚ) : ℚ := (redondeoHalfEven (q * 10000) : ℚ) / 10000

/-- The `calcular-factores` API action (api.py lines 333-387): reject a
non-positive factor total with a 400, otherwise rescale every factor to
`m / total` quantized to 4 decimals and save, converting a model
validation failure into a 400 (ledger untouched). -/
def calcular_factores_action (ledger : List Calificacion) (c : Calificacion) :
    List Calificacion × Except String Calificacion :=
  let total := c.factores.foldl (fun t m => t + m) 0
  if total ≤ 0 then
    (ledger, Except.error "La suma actual de factores es 0; no se puede normalizar.")
  else
    let valores := c.factores.map (fun m => quantize4 (m / total))
    save_calificacion ledger { c with factores := valores }

-- =====================================================================
-- Ledger upsert (services.py::_obtener_o_crear_calificacion_from_row)
-- =====================================================================

/-- The concrete field names of the `CalificacionTributaria` model
(models.py lines 147-236 plus the `TimeStampedModel` base and pk), which
Django's `update_or_create` checks the `defaults` keys against before
instantiating a new record. -/
def camposCalificacion : List String :=
  ["id", "creado_en", "actualizado_en", "activo",
   "ejercicio", "mercado", "fecha_pago", "descripcion", "secuencia_evento",
   "dividendo", "valor_historico", "valor_actualizado",
   "factor_actualizacion", "isfut", "estado", "corredor", "pais",
   "pais_detectado", "archivo_origen", "identificador_cliente",
   "instrumento", "moneda", "factor_8", "factor_9", "factor_10",
   "factor_11", "factor_12", "factor_13", "factor_14", "factor_15",
   "factor_16", "factor_17", "factor_18", "factor_19", "observaciones",
   "creado_por", "actualizado_por"]

/-- The keys of the `defaults` dict built by
`_obtener_o_crear_calificacion_from_row` (services.py lines 347-362), in
source order.  Note `archivo_carga`: the model's actual field is named
`archivo_origen`. -/
def clavesDefaults : List String :=
  ["corredor", "archivo_carga", "mercado", "ejercicio", "secuencia_evento",
   "pais", "estado", "valor_historico", "valor_actualizado",
   "factor_actualizacion"] ++
    indicesFactor.map (fun i => "factor_" ++ toString i)

/-- The row-derived values handed to the upsert (the `row_dict` after the
loop body has filled it in). -/
structure DatosFila where
  identificador_cliente : String
  instrumento : String
  mercado : String
  ejercicio : String
  secuencia_evento : String
  pais : Option String
  estado : String
  valor_historico : ℚ
  valor_actualizado : ℚ
  factor_actualizacion : ℚ
  factores : List ℚ
deriving DecidableEq, Repr

/-- The coercion Django applies when the string `ejercicio` meets the
`PositiveIntegerField` in a query or assignment: digits parse, anything
else raises. -/
def parsearEjercicio (s : String) : Except String Nat :=
  if esDigitos s then Except.ok (natDeDigitos s)
  else Except.error ("Field ejercicio expected a number but got " ++ s ++ ".")

/-- A fresh primary key for a create. -/
def pkFresco (ledger : List Calificacion) : Nat :=
  ledger.foldl (fun m c => max m c.pk) 0 + 1

/-- `_obtener_o_crear_calificacion_from_row` (services.py lines 326-374).
Missing identifier/instrument raises; a blank `ejercicio` defaults to the
current year; then `update_or_create` on the composite key
(corredor, identificador_cliente, instrumento, ejercicio, mercado,
secuencia_evento): a hit updates every defaults-named field in place and
saves; a miss first validates the `defaults` keys against the model's
field names (Django `_extract_model_params`), which fails on
`archivo_carga`, and would otherwise create and save.  Returns the new
ledger, the object and the created flag. -/
def obtener_o_crear_calificacion (ledger : List Calificacion) (corredor : String)
    (nowYear : Nat) (d : DatosFila) :
    Except String (List Calificacion × Calificacion × Bool) :=
  if d.identificador_cliente = "" ∨ d.instrumento = "" then
    Except.error "Faltan datos obligatorios: identificador_cliente o instrumento."
  else
    let ejercicioStr := if d.ejercicio = "" then toString nowYear else d.ejercicio
    match parsearEjercicio ejercicioStr with
    | Except.error e => Except.error e
    | Except.ok ej =>
      match ledger.find? (fun c =>
          c.corredor = corredor ∧ c.identificador_cliente = d.identificador_cliente ∧
          c.instrumento = d.instrumento ∧ c.ejercicio = some ej ∧
          c.mercado = d.mercado ∧ c.secuencia_evento = d.secuencia_evento) with
      | some existente =>
        let actualizado := { existente with
          corredor := corredor, mercado := d.mercado, ejercicio := some ej,
          secuencia_evento := d.secuencia_evento, pais := d.pais,
          estado := d.estado, valor_historico := d.valor_historico,
          valor_actualizado := d.valor_actualizado,
          factor_actualizacion := d.factor_actualizacion, factores := d.factores }
        match save_calificacion ledger actualizado with
        | (_, Except.error e) => Except.error e
        | (ledger', Except.ok c') => Except.ok (ledger', c', false)
      | Option.none =>
        if clavesDefaults.all (fun k => camposCalificacion.contains k) then
          let nuevo : Calificacion := {
            pk := pkFresco ledger, corredor := corredor,
            identificador_cliente := d.identificador_cliente,
            instrumento := d.instrumento, ejercicio := some ej,
            mercado := d.mercado, secuencia_evento := d.secuencia_evento,
            pais := d.pais, estado := d.estado,
            valor_historico := d.valor_historico,
            valor_actualizado := d.valor_actualizado,
            factor_actualizacion := d.factor_actualizacion,
            factores := d.factores }
          match save_calificacion ledger nuevo with
          | (_, Except.error e) => Except.error e
          | (ledger', Except.ok c') => Except.ok (ledger', c', true)
        else
          Except.error "FieldError: Invalid field name(s) for model CalificacionTributaria: archivo_carga"

-- =====================================================================
-- Ingestion row loops (services.py lines 377-515 and 518-656)
-- =====================================================================

/-- A dataframe row as an ordered (column name, value) mapping. -/
abbrev Fila := List (String × PyVal)

/-- `_extraer_valor` (services.py lines 244-250). -/
def extraer_valor (fila : Fila) (col : String) (dflt : PyVal) : PyVal :=
  match fila.find? (fun kv => kv.fst = col) with
  | some kv => kv.snd
  | Option.none => dflt

/-- `str(_extraer_valor(row, col, "")).strip()`. -/
def extraerStr (fila : Fila) (col : String) : String :=
  pyStrip (pyStrVal (extraer_valor fila col (PyVal.str "")))

/-- The 12 parsed factor values of a row (the loop of lines 463-466). -/
def extraerFactoresFila (fila : Fila) : List (Option ℚ) :=
  indicesFactor.map (fun i =>
    normalizar_valor_decimal (extraer_valor fila ("factor_" ++ toString i) PyVal.none))

/-- `Pais.objects.get_or_create` keyed on the uppercased ISO3 code
(`_detectar_pais_y_crear_si_falta`, services.py lines 201-214). -/
def crear_pais_si_falta (paises : List String) (cod : String) : List String × String :=
  let cod' := String.mk (pyUpperL cod.data)
  if paises.contains cod' then (paises, cod') else (paises ++ [cod'], cod')

/-- The per-row country resolution of both loops (lines 443-461 /
585-603): the first column whose name contains `pais` wins if its
stripped uppercased value is one of CHL/COL/PER, otherwise the heuristic
detector runs on the identifier and instrument. -/
def pasoPais (paises : List String) (fila : Fila)
    (identificador instrumento : String) : List String × Option String :=
  match fila.find? (fun kv => containsSub (pyLowerL kv.fst.data) "pais".data) with
  | some kv =>
    let valorPais := String.mk (pyUpperL (pyStripL (pyStrVal kv.snd).data))
    if valorPais = "CHL" ∨ valorPais = "COL" ∨ valorPais = "PER" then
      let r := crear_pais_si_falta paises valorPais
      (r.fst, some r.snd)
    else (paises, Option.none)
  | Option.none =>
    match (detectar_pais [PyVal.str identificador, PyVal.str instrumento]).fst with
    | some cod =>
      let r := crear_pais_si_falta paises cod
      (r.fst, some r.snd)
    | Option.none => (paises, Option.none)

/-- One recorded row failure (`errores_por_fila` entry: row number,
message, raw row data). -/
structure ErrorFila where
  fila : Nat
  error : String
  datos : Fila
deriving DecidableEq, Repr

/-- The mutable state of one ingestion run: the ledger and country store
plus the counters and error list of the loop. -/
structure EstadoCarga where
  ledger : List Calificacion
  paises : List String
  total_registros : Nat
  nuevos : Nat
  actualizados : Nat
  rechazados : Nat
  errores : List ErrorFila
deriving DecidableEq, Repr

/-- The loop state at the start of a run over a given ledger and country
store. -/
def estadoInicial (ledger : List Calificacion) (paises : List String) : EstadoCarga :=
  { ledger := ledger, paises := paises, total_registros := 0, nuevos := 0,
    actualizados := 0, rechazados := 0, errores := [] }

/-- Shared head of both row loops (lines 429-466 / 571-608): extract the
string fields, resolve the country, parse the 12 factors. -/
def cabeceraFila (st : EstadoCarga) (fila : Fila) :
    EstadoCarga × String × String × String × String × String × Option String × List (Option ℚ) :=
  let identificador := extraerStr fila "identificador_cliente"
  let instrumento := extraerStr fila "instrumento"
  let mercado := extraerStr fila "mercado"
  let ejercicio := extraerStr fila "ejercicio"
  let secuencia := extraerStr fila "secuencia_evento"
  let pp := pasoPais st.paises fila identificador instrumento
  ({ st with paises := pp.fst }, identificador, instrumento, mercado, ejercicio,
    secuencia, pp.snd, extraerFactoresFila fila)

/-- Tail of a row iteration: apply the upsert outcome to the counters, or
record the caught exception as a rejected row (lines 480-492 / 621-633). -/
def aplicarResultadoFila (st : EstadoCarga) (idx : Nat) (fila : Fila)
    (res : Except String (List Calificacion × Calificacion × Bool)) : EstadoCarga :=
  match res with
  | Except.ok (ledger', _, created) =>
    if created then { st with ledger := ledger', nuevos := st.nuevos + 1 }
    else { st with ledger := ledger', actualizados := st.actualizados + 1 }
  | Except.error e =>
    { st with rechazados := st.rechazados + 1,
              errores := st.errores ++ [⟨idx + 1, e, fila⟩] }

/-- One FACTOR-mode row (the body of the loop at services.py lines
425-492). -/
def paso_fila_factores (corredor : String) (nowYear : Nat) (st : EstadoCarga)
    (idx : Nat) (fila : Fila) : EstadoCarga :=
  let st := { st with total_registros := st.total_registros + 1 }
  match cabeceraFila st fila with
  | (st, identificador, instrumento, mercado, ejercicio, secuencia, pais, factores) =>
    let cn := classify_and_normalize factores
    let datos : DatosFila := {
      identificador_cliente := identificador, instrumento := instrumento,
      mercado := mercado, ejercicio := ejercicio, secuencia_evento := secuencia,
      pais := pais, estado := "VIGENTE", valor_historico := 0,
      valor_actualizado := 0, factor_actualizacion := cn.snd,
      factores := cn.fst.map (fun v => v.getD 0) }
    aplicarResultadoFila st idx fila
      (obtener_o_crear_calificacion st.ledger corredor nowYear datos)

/-- The ValidationError message of the MONTO loop's mode check. -/
def msgNoParecenMontos : String :=
  "Los valores de factor_8..factor_19 no parecen montos (suman <= 1)."

/-- One MONTO-mode row (the body of the loop at services.py lines
567-633): rows whose factors do not look like amounts raise and are
rejected; the rest are rescaled to sum 1 with `factor_actualizacion = 1`
and upserted. -/
def paso_fila_monto (corredor : String) (nowYear : Nat) (st : EstadoCarga)
    (idx : Nat) (fila : Fila) : EstadoCarga :=
  let st := { st with total_registros := st.total_registros + 1 }
  match cabeceraFila st fila with
  | (st, identificador, instrumento, mercado, ejercicio, secuencia, pais, factores) =>
    if ¬ es_modo_monto factores then
      aplicarResultadoFila st idx fila (Except.error msgNoParecenMontos)
    else
      let datos : DatosFila := {
        identificador_cliente := identificador, instrumento := instrumento,
        mercado := mercado, ejercicio := ejercicio, secuencia_evento := secuencia,
        pais := pais, estado := "VIGENTE", valor_historico := 0,
        valor_actualizado := 0, factor_actualizacion := 1,
        factores := normalizar_factores_a_1 factores }
      aplicarResultadoFila st idx fila
        (obtener_o_crear_calificacion st.ledger corredor nowYear datos)

/-- The FACTOR-mode row loop (`for idx, row in df.iterrows()`). -/
def procesar_filas_factores (corredor : String) (nowYear : Nat) :
    EstadoCarga → Nat → List Fila → EstadoCarga
  | st, _, [] => st
  | st, idx, fila :: rest =>
    procesar_filas_factores corredor nowYear
      (paso_fila_factores corredor nowYear st idx fila) (idx + 1) rest

/-- The MONTO-mode row loop. -/
def procesar_filas_monto (corredor : String) (nowYear : Nat) :
    EstadoCarga → Nat → List Fila → EstadoCarga
  | st, _, [] => st
  | st, idx, fila :: rest =>
    procesar_filas_monto corredor nowYear
      (paso_fila_monto corredor nowYear st idx fila) (idx + 1) rest

-- =====================================================================
-- Ingestion job orchestrators (services.py lines 377-515 / 518-656)
-- =====================================================================

/-- A loaded dataframe: the column names and the cell rows.  (The pandas
file parsing itself is I/O; the orchestrators are modelled from the point
where the dataframe exists, which is the premise of every claim about the
row loop.) -/
structure Df where
  headers : List String
  filas : List (List PyVal)
deriving DecidableEq, Repr

/-- `_normalizar_headers_dataframe` (services.py lines 253-262). -/
def normalizar_headers_df (df : Df) : Df :=
  { df with headers := df.headers.map normalizar_header }

/-- The rows of a dataframe as (column, value) mappings. -/
def filasDe (df : Df) : List Fila := df.filas.map (fun cs => df.headers.zip cs)

/-- The persisted `resumen_proceso` document. -/
structure Resumen where
  total_registros : Nat
  nuevos : Nat
  actualizados : Nat
  rechazados : Nat
  detalle : Option String
deriving DecidableEq, Repr

/-- The embedded `ArchivoCarga` job record (processing-lifecycle fields;
timestamps are rational clock readings). -/
structure ArchivoCarga where
  nombre_original : String := ""
  tipo_carga : String := "FACTOR"
  estado_proceso : String := "pendiente"
  resumen_proceso : Option Resumen := Option.none
  errores_por_fila : List ErrorFila := []
  started_at : Option ℚ := Option.none
  finished_at : Option ℚ := Option.none
  tiempo_procesamiento_seg : Option ℚ := Option.none
deriving DecidableEq, Repr

/-- `procesar_archivo_carga_factores` (services.py lines 377-515) from
the point where the dataframe has loaded successfully: mark processing,
normalize headers, run the row loop, then finalize with the finish
timestamp, the elapsed seconds, the state — unconditionally `"ok"` in
this source (line 498) — the summary counters and the error list.
`started`/`finished` are the two `timezone.now()` readings. -/
def procesar_archivo_carga_factores (started finished : ℚ) (corredor : String)
    (nowYear : Nat) (archivo : ArchivoCarga) (df : Df) (st0 : EstadoCarga) :
    ArchivoCarga × EstadoCarga :=
  let archivo1 := { archivo with started_at := some started,
                                 estado_proceso := "procesando" }
  let stF := procesar_filas_factores corredor nowYear st0 0
    (filasDe (normalizar_headers_df df))
  ({ archivo1 with
      finished_at := some finished,
      tiempo_procesamiento_seg := some (finished - started),
      estado_proceso := "ok",
      resumen_proceso := some ⟨stF.total_registros, stF.nuevos,
        stF.actualizados, stF.rechazados, Option.none⟩,
      errores_por_fila := stF.errores }, stF)

/-- `procesar_archivo_carga_monto` (services.py lines 518-656), same
shape; the final state is likewise unconditionally `"ok"` (line 639). -/
def procesar_archivo_carga_monto (started finished : ℚ) (corredor : String)
    (nowYear : Nat) (archivo : ArchivoCarga) (df : Df) (st0 : EstadoCarga) :
    ArchivoCarga × EstadoCarga :=
  let archivo1 := { archivo with started_at := some started,
                                 estado_proceso := "procesando" }
  let stF := procesar_filas_monto corredor nowYear st0 0
    (filasDe (normalizar_headers_df df))
  ({ archivo1 with
      finished_at := some finished,
      tiempo_procesamiento_seg := some (finished - started),
      estado_proceso := "ok",
      resumen_proceso := some ⟨stF.total_registros, stF.nuevos,
        stF.actualizados, stF.rechazados, Option.none⟩,
      errores_por_fila := stF.errores }, stF)

-- =====================================================================
-- Example inputs used by witnesses and counterexamples
-- =====================================================================

/-- The 3-line CSV of the happy-path scenario (header plus two data rows,
one with factor sum 0.5, one with factor sum 1.3), as loaded by pandas:
the factor_8 column is float-typed, the remaining factor columns
int-typed. -/
def dfEscenarioCsv : Df :=
  { headers := ["identificador_cliente", "instrumento", "factor_8", "factor_9",
      "factor_10", "factor_11", "factor_12", "factor_13", "factor_14",
      "factor_15", "factor_16", "factor_17", "factor_18", "factor_19"],
    filas := [
      [PyVal.str "CLI001", PyVal.str "ACCION-A", PyVal.float (1/2), PyVal.int 0,
       PyVal.int 0, PyVal.int 0, PyVal.int 0, PyVal.int 0, PyVal.int 0,
       PyVal.int 0, PyVal.int 0, PyVal.int 0, PyVal.int 0, PyVal.int 0],
      [PyVal.str "CLI002", PyVal.str "ACCION-B", PyVal.float (13/10), PyVal.int 0,
       PyVal.int 0, PyVal.int 0, PyVal.int 0, PyVal.int 0, PyVal.int 0,
       PyVal.int 0, PyVal.int 0, PyVal.int 0, PyVal.int 0, PyVal.int 0]] }

/-- A one-row dataframe whose row lacks the mandatory identifier and
instrument, so the row is rejected. -/
def dfFilaRechazada : Df :=
  { headers := ["identificador_cliente", "instrumento"],
    filas := [[PyVal.str "", PyVal.str ""]] }

/-- A well-formed ledger record with a numeric event sequence. -/
def calEjemplo : Calificacion :=
  { pk := 1, corredor := "corr1", identificador_cliente := "CLI9",
    instrumento := "BONO", ejercicio := some 2026, mercado := "BVS",
    secuencia_evento := "10005", pais := Option.none, estado := "pendiente",
    valor_historico := 0, valor_actualizado := 0, factor_actualizacion := 0,
    factores := [0, 0, 0, 0, 0, 0, 0, 0, 0, 0, 0, 0] }

/-- A record about to be saved without a supplied event sequence. -/
def calSinSecuencia : Calificacion := { calEjemplo with pk := 2, secuencia_evento := "" }

/-- A record whose factor sum exceeds 1. -/
def calSumaExcedida : Calificacion :=
  { calEjemplo with pk := 3, factores := [2, 0, 0, 0, 0, 0, 0, 0, 0, 0, 0, 0] }

/-- The twelve factor cells of a MONTO-mode example row. -/
def factoresEjemploMonto : List (Option ℚ) :=
  [some (13/10), some 0, some 0, Option.none, some 0, some 0, some 0, some 0,
   some 0, some 0, some 0, some 0]

/-- A MONTO-mode row whose factors sum to only 0.5, hence do not look
like amounts. -/
def filaMontoPequena : Fila :=
  [("identificador_cliente", PyVal.str "CLI7"), ("instrumento", PyVal.str "FX"),
   ("factor_8", PyVal.float (1/2))]

/-- The persistence invariant `save` maintains on event sequences: every
non-empty stored `secuencia_evento` is a digit string of value at least
10000 (supplied sequences are validated by `clean`, assigned ones start
at 10000). -/
def ledgerBienFormado (st : List Calificacion) : Prop :=
  ∀ c ∈ st, c.secuencia_evento ≠ "" →
    esDigitos c.secuencia_evento = true ∧ 10000 ≤ natDeDigitos c.secuencia_evento

-- =====================================================================
-- Character and strip/lower lemmas
-- =====================================================================

theorem pyLowerChar_fixes_snd : ∀ p ∈ parejasMayusculas,
    parejasMayusculas.find? (fun q => q.fst = p.snd) = Option.none := by decide

theorem pyLowerChar_idem (c : Char) : pyLowerChar (pyLowerChar c) = pyLowerChar c := by
  rcases h : parejasMayusculas.find? (fun p => p.fst = c) with _ | p
  · have hl : pyLowerChar c = c := by simp [pyLowerChar, h]
    rw [hl, hl]
  · have hmem := List.mem_of_find?_eq_some h
    have hl : pyLowerChar c = p.snd := by simp [pyLowerChar, h]
    rw [hl]
    simp [pyLowerChar, pyLowerChar_fixes_snd p hmem]

theorem parejas_no_space : ∀ p ∈ parejasMayusculas,
    isSpacePy p.fst = false ∧ isSpacePy p.snd = false := by decide

theorem isSpacePy_pyLowerChar (c : Char) : isSpacePy (pyLowerChar c) = isSpacePy c := by
  rcases h : parejasMayusculas.find? (fun p => p.fst = c) with _ | p
  · simp [pyLowerChar, h]
  · have hmem := List.mem_of_find?_eq_some h
    have hc : p.fst = c := by
      have := List.find?_some h
      simpa using this
    have hl : pyLowerChar c = p.snd := by simp [pyLowerChar, h]
    rw [hl, (parejas_no_space p hmem).2, ← hc, (parejas_no_space p hmem).1]

theorem dropWhile_dropWhile (p : Char → Bool) (l : List Char) :
    (l.dropWhile p).dropWhile p = l.dropWhile p := by
  induction l with
  | nil => rfl
  | cons a t ih =>
    by_cases h : p a
    · simp [List.dropWhile_cons, h, ih]
    · simp [List.dropWhile_cons, h]

theorem head_dropWhile_false (p : Char → Bool) (l : List Char) :
    ∀ a t, l.dropWhile p = a :: t → p a = false := by
  induction l with
  | nil => intro a t h; simp at h
  | cons b bs ih =>
    intro a t h
    by_cases hb : p b
    · exact ih a t (by simpa [List.dropWhile_cons, hb] using h)
    · rw [List.dropWhile_cons, if_neg (by simpa using hb)] at h
      cases h
      simpa using hb

theorem getLast?_dropWhile (p : Char → Bool) (l : List Char)
    (h : l.dropWhile p ≠ []) : (l.dropWhile p).getLast? = l.getLast? := by
  induction l with
  | nil => simp at h
  | cons a t ih =>
    by_cases ha : p a
    · rw [List.dropWhile_cons, if_pos (by simpa using ha)] at h ⊢
      have ht : t ≠ [] := by
        intro hnil; subst hnil; simp at h
      rcases t with _ | ⟨b, bs⟩
      · simp at ht
      · rw [ih h, List.getLast?_cons_cons]
    · rw [List.dropWhile_cons, if_neg (by simpa using ha)]

theorem dropWhile_of_head_false (p : Char → Bool) (c : Char) (t : List Char)
    (h : p c = false) : (c :: t).dropWhile p = c :: t := by
  simp [List.dropWhile_cons, h]

theorem dropWhile_eq_nil_of_all (p : Char → Bool) (l : List Char)
    (h : ∀ c ∈ l, p c = true) : l.dropWhile p = [] := by
  induction l with
  | nil => rfl
  | cons a t ih =>
    rw [List.dropWhile_cons, if_pos (by simpa using h a (by simp))]
    exact ih (fun c hc => h c (by simp [hc]))

theorem all_of_dropWhile_eq_nil (p : Char → Bool) (l : List Char)
    (h : l.dropWhile p = []) : ∀ c ∈ l, p c = true := by
  induction l with
  | nil => simp
  | cons a t ih =>
    by_cases ha : p a
    · rw [List.dropWhile_cons, if_pos (by simpa using ha)] at h
      intro c hc
      rcases List.mem_cons.mp hc with rfl | hct
      · simpa using ha
      · exact ih h c hct
    · rw [List.dropWhile_cons, if_neg (by simpa using ha)] at h
      simp at h

theorem head_pyStripL (l : List Char) (c : Char) (t : List Char)
    (h : pyStripL l = c :: t) : isSpacePy c = false := by
  unfold pyStripL at h
  have hb : ((l.dropWhile isSpacePy).reverse.dropWhile isSpacePy).getLast? = some c := by
    rw [← List.head?_reverse, h]; rfl
  have hbne : (l.dropWhile isSpacePy).reverse.dropWhile isSpacePy ≠ [] := by
    intro hnil; rw [hnil] at hb; simp at hb
  rw [getLast?_dropWhile _ _ hbne, List.getLast?_reverse] at hb
  rcases hd : l.dropWhile isSpacePy with _ | ⟨x, xs⟩
  · rw [hd] at hb; simp at hb
  · rw [hd] at hb
    simp only [List.head?_cons, Option.some.injEq] at hb
    subst hb
    exact head_dropWhile_false isSpacePy l x xs hd

theorem last_pyStripL (l : List Char) (c : Char)
    (h : (pyStripL l).getLast? = some c) : isSpacePy c = false := by
  unfold pyStripL at h
  rw [List.getLast?_reverse] at h
  rcases hd : (l.dropWhile isSpacePy).reverse.dropWhile isSpacePy with _ | ⟨x, xs⟩
  · rw [hd] at h; simp at h
  · rw [hd] at h
    simp only [List.head?_cons, Option.some.injEq] at h
    subst h
    exact head_dropWhile_false isSpacePy _ x xs hd

theorem dropWhile_eq_self_strip (m : List Char)
    (hm : ∀ c t, m = c :: t → isSpacePy c = false) :
    m.dropWhile isSpacePy = m := by
  rcases m with _ | ⟨c, t⟩
  · rfl
  · exact dropWhile_of_head_false isSpacePy c t (hm c t rfl)

theorem pyStripL_idem (l : List Char) : pyStripL (pyStripL l) = pyStripL l := by
  have h1 : (pyStripL l).dropWhile isSpacePy = pyStripL l :=
    dropWhile_eq_self_strip _ (fun c t hct => head_pyStripL l c t hct)
  have h2 : (pyStripL l).reverse.dropWhile isSpacePy = (pyStripL l).reverse := by
    apply dropWhile_eq_self_strip
    intro c t hct
    apply last_pyStripL l c
    rw [← List.head?_reverse, hct]
    rfl
  show ((((pyStripL l).dropWhile isSpacePy).reverse.dropWhile isSpacePy)).reverse = pyStripL l
  rw [h1, h2, List.reverse_reverse]

theorem dropWhile_pyLowerL (l : List Char) :
    (pyLowerL l).dropWhile isSpacePy = pyLowerL (l.dropWhile isSpacePy) := by
  induction l with
  | nil => rfl
  | cons a t ih =>
    show (pyLowerChar a :: pyLowerL t).dropWhile isSpacePy =
      pyLowerL ((a :: t).dropWhile isSpacePy)
    by_cases ha : isSpacePy a
    · simp only [List.dropWhile_cons, isSpacePy_pyLowerChar, ha, if_pos]
      exact ih
    · simp only [List.dropWhile_cons, isSpacePy_pyLowerChar, ha]
      rfl

theorem pyLowerL_reverse (l : List Char) :
    pyLowerL l.reverse = (pyLowerL l).reverse := List.map_reverse pyLowerChar l

theorem pyLowerL_idem (l : List Char) : pyLowerL (pyLowerL l) = pyLowerL l := by
  induction l with
  | nil => rfl
  | cons a t ih =>
    show pyLowerChar (pyLowerChar a) :: pyLowerL (pyLowerL t) =
      pyLowerChar a :: pyLowerL t
    rw [pyLowerChar_idem, ih]

theorem pyLowerL_pyStripL (l : List Char) :
    pyLowerL (pyStripL l) = pyStripL (pyLowerL l) := by
  unfold pyStripL
  rw [pyLowerL_reverse, ← dropWhile_pyLowerL, pyLowerL_reverse, ← dropWhile_pyLowerL]

theorem pyStripLower_idem (s : String) :
    pyStripLower (pyStripLower s) = pyStripLower s := by
  unfold pyStripLower
  show String.mk (pyStripL (pyLowerL (pyStripL (pyLowerL s.data)))) = _
  rw [pyLowerL_pyStripL, pyLowerL_idem, pyStripL_idem]

theorem canonicos_reemplazos : ∀ t ∈ reemplazos.map Prod.snd,
    normalizar_header t = t := by decide

theorem canonicos_factores : ∀ i ∈ indicesFactor,
    normalizar_header ("factor_" ++ toString i) = "factor_" ++ toString i := by decide

/-- Claim C6: the header normalizer is idempotent —
`normalizar_header (normalizar_header x) = normalizar_header x` for every
string `x` — and it returns unchanged every canonical field name it can
produce (every synonym-table target and `factor_8`..`factor_19`; the
fallback outputs are covered by the universal idempotence part). -/
theorem normalizar_header_idempotente :
    (∀ x : String, normalizar_header (normalizar_header x) = normalizar_header x) ∧
    ((reemplazos.map Prod.snd ++
        indicesFactor.map (fun i => "factor_" ++ toString i)).all
      (fun t => normalizar_header t == t)) = true := by
  constructor
  · intro x
    by_cases hx : x = ""
    · subst hx; rfl
    · rcases h1 : buscarReemplazo (pyStripLower x) with _ | t
      · rcases h2 : indicesFactor.find?
            (fun i => decide (pyStripLower x ∈ patronesFactor i)) with _ | i
        · have hnx : normalizar_header x = pyStripLower x := by
            simp only [normalizar_header, if_neg hx, h1]
            simp [h2]
          rw [hnx]
          by_cases hn : pyStripLower x = ""
          · rw [hn]; rfl
          · simp only [normalizar_header, if_neg hn, pyStripLower_idem, h1]
            simp [h2]
        · have hnx : normalizar_header x = "factor_" ++ toString i := by
            simp only [normalizar_header, if_neg hx, h1]
            simp [h2]
          rw [hnx]
          exact canonicos_factores i (List.mem_of_find?_eq_some h2)
      · have hnx : normalizar_header x = t := by
          simp [normalizar_header, hx, h1]
        rw [hnx]
        refine canonicos_reemplazos t ?_
        rcases hf : reemplazos.find? (fun p => p.fst = pyStripLower x) with _ | p
        · simp [buscarReemplazo, hf] at h1
        · simp only [buscarReemplazo, hf] at h1
          have hpt : p.snd = t := by simpa using h1
          exact hpt ▸ List.mem_map.mpr ⟨p, List.mem_of_find?_eq_some hf, rfl⟩
  · decide

/-- Claim C5 (amended): the decimal normalizer maps `None` and
whitespace-only strings to `None` and maps the locale input `"1.234,56"`
to the exact decimal 1234.56; for a string with no numeric content such
as `"abc"` it also returns `None` — the failed `Decimal` parse is caught
(services.py lines 240-241), so no `InvalidDecimal`-style error is
raised. -/
theorem normalizar_valor_decimal_fronteras :
    normalizar_valor_decimal PyVal.none = Option.none ∧
    (∀ s : String, s.data.all isSpacePy = true →
      normalizar_valor_decimal (PyVal.str s) = Option.none) ∧
    normalizar_valor_decimal (PyVal.str "1.234,56") = some (123456 / 100) ∧
    normalizar_valor_decimal (PyVal.str "abc") = Option.none := by
  refine ⟨rfl, ?_, by decide, by decide⟩
  intro s hs
  have hall : ∀ c ∈ s.data, isSpacePy c = true := by
    simpa [List.all_eq_true] using hs
  have h1 : s.data.dropWhile isSpacePy = [] := dropWhile_eq_nil_of_all _ _ hall
  have ht : pyStripL s.data = [] := by
    unfold pyStripL
    rw [h1]
    rfl
  simp [normalizar_valor_decimal, ht]

/-- Claim C5 counterexample: on the input `"abc"` the decimal normalizer
returns the value `None` instead of failing — the `Decimal` parse error
is swallowed by the `except` clause of `_normalizar_valor_decimal`, so no
`InvalidDecimal` error citing the raw input ever escapes. -/
theorem normalizar_valor_decimal_abc_devuelve_none :
    normalizar_valor_decimal (PyVal.str "abc") = Option.none := by decide

/-- Witness for the whitespace clause of C5 at the concrete input
`"   "`. -/
theorem normalizar_valor_decimal_fronteras_witness :
    normalizar_valor_decimal (PyVal.str "   ") = Option.none :=
  normalizar_valor_decimal_fronteras.2.1 "   " (by decide)

theorem suma_opcionales_eq (fs : List (Option ℚ)) :
    suma_opcionales fs = (fs.map (fun v => v.getD 0)).sum := by
  have gen : ∀ (l : List (Option ℚ)) (t : ℚ),
      l.foldl (fun t v => match v with | Option.none => t | some x => t + x) t
        = t + (l.map (fun v => v.getD 0)).sum := by
    intro l
    induction l with
    | nil => intro t; simp
    | cons v rest ih =>
      intro t
      cases v with
      | none => simpa using ih t
      | some x =>
        simp only [List.foldl_cons, List.map_cons, List.sum_cons, Option.getD_some]
        rw [ih (t + x)]
        ring
  simpa using gen fs 0

theorem sum_map_div (l : List (Option ℚ)) (T : ℚ) :
    (l.map (fun v => v.getD 0 / T)).sum = (l.map (fun v => v.getD 0)).sum / T := by
  induction l with
  | nil => simp
  | cons v rest ih => simp [ih, add_div]

/-- Claim C2: for any assignment of the 12 factor values (missing values
as `None`), a value above 1 or a total above 1.0001 puts the classifier
in monto mode; there `factor_actualizacion` is set to 1 and each output
is the input divided by the total, so for a non-zero total the outputs
sum to exactly 1 (hence within the 0.0001 quantization tolerance), while
a total of exactly 0 yields all-zero outputs with no division. -/
theorem clasificacion_monto (fs : List (Option ℚ)) (hlen : fs.length = 12)
    (h : (∃ v : ℚ, some v ∈ fs ∧ v > 1) ∨ suma_opcionales fs > 10001/10000) :
    es_modo_monto fs = true ∧
    (classify_and_normalize fs).snd = 1 ∧
    (classify_and_normalize fs).fst = (normalizar_factores_a_1 fs).map some ∧
    (suma_opcionales fs ≠ 0 →
      normalizar_factores_a_1 fs =
        fs.map (fun v => v.getD 0 / suma_opcionales fs) ∧
      (normalizar_factores_a_1 fs).sum = 1 ∧
      |(normalizar_factores_a_1 fs).sum - 1| ≤ 1/10000) ∧
    (suma_opcionales fs = 0 →
      normalizar_factores_a_1 fs = fs.map (fun _ => (0:ℚ))) := by
  have hm : es_modo_monto fs = true := by
    unfold es_modo_monto
    rcases h with ⟨v, hv, hv1⟩ | hs
    · refine (Bool.or_eq_true _ _).mpr (Or.inl ?_)
      exact List.any_eq_true.mpr ⟨some v, hv, by simpa using hv1⟩
    · exact (Bool.or_eq_true _ _).mpr (Or.inr (by simpa using hs))
  refine ⟨hm, ?_, ?_, ?_, ?_⟩
  · simp [classify_and_normalize, hm]
  · simp [classify_and_normalize, hm]
  · intro hT
    have hfun : (fun v : Option ℚ =>
        match v with | Option.none => (0:ℚ) | some x => x / suma_opcionales fs) =
        (fun v : Option ℚ => v.getD 0 / suma_opcionales fs) := by
      funext v; cases v <;> simp
    have hmap : normalizar_factores_a_1 fs =
        fs.map (fun v => v.getD 0 / suma_opcionales fs) := by
      unfold normalizar_factores_a_1
      rw [if_neg hT, hfun]
    refine ⟨hmap, ?_, ?_⟩
    · rw [hmap, sum_map_div, ← suma_opcionales_eq, div_self hT]
    · rw [hmap, sum_map_div, ← suma_opcionales_eq, div_self hT]
      norm_num
  · intro hT
    unfold normalizar_factores_a_1
    rw [if_pos hT]

/-- Witness for C2 at a concrete 12-value row whose total 1.3 exceeds the
1.0001 tolerance. -/
theorem clasificacion_monto_witness :
    es_modo_monto factoresEjemploMonto = true ∧
    (classify_and_normalize factoresEjemploMonto).snd = 1 ∧
    (classify_and_normalize factoresEjemploMonto).fst =
      (normalizar_factores_a_1 factoresEjemploMonto).map some ∧
    (suma_opcionales factoresEjemploMonto ≠ 0 →
      normalizar_factores_a_1 factoresEjemploMonto =
        factoresEjemploMonto.map
          (fun v => v.getD 0 / suma_opcionales factoresEjemploMonto) ∧
      (normalizar_factores_a_1 factoresEjemploMonto).sum = 1 ∧
      |(normalizar_factores_a_1 factoresEjemploMonto).sum - 1| ≤ 1/10000) ∧
    (suma_opcionales factoresEjemploMonto = 0 →
      normalizar_factores_a_1 factoresEjemploMonto =
        factoresEjemploMonto.map (fun _ => (0:ℚ))) :=
  clasificacion_monto factoresEjemploMonto (by decide) (Or.inr (by decide))

-- =====================================================================
-- Save-path lemmas (C1, C7)
-- =====================================================================

theorem sumaFactores_asignar (st : List Calificacion) (c : Calificacion) :
    sumaFactores (asignar_secuencia st c) = sumaFactores c := by
  unfold asignar_secuencia; split <;> rfl

theorem factores_asignar (st : List Calificacion) (c : Calificacion) :
    (asignar_secuencia st c).factores = c.factores := by
  unfold asignar_secuencia; split <;> rfl

theorem clean_error_de_suma (c : Calificacion) (h : sumaFactores c > 1) :
    clean_calificacion c =
      Except.error "La suma de factores no puede ser mayor a 1." := by
  unfold clean_calificacion; rw [if_pos h]

theorem full_clean_error_de_suma (c : Calificacion) (h : sumaFactores c > 1) :
    ∃ e, full_clean_calificacion c = Except.error e := by
  rcases hf : clean_fields_calificacion c with e | u
  · exact ⟨e, by simp [full_clean_calificacion, hf]⟩
  · exact ⟨"La suma de factores no puede ser mayor a 1.",
      by simp [full_clean_calificacion, hf, clean_error_de_suma c h]⟩

theorem clean_ok_suma (c : Calificacion)
    (h : clean_calificacion c = Except.ok ()) : sumaFactores c ≤ 1 := by
  by_contra hgt
  rw [not_le] at hgt
  rw [clean_error_de_suma c hgt] at h
  exact absurd h (by simp)

theorem full_clean_ok_clean (c : Calificacion)
    (h : full_clean_calificacion c = Except.ok ()) :
    clean_calificacion c = Except.ok () := by
  unfold full_clean_calificacion at h
  rcases hf : clean_fields_calificacion c with e | u
  · rw [hf] at h; exact absurd h (by simp)
  · rw [hf] at h; exact h

theorem save_error_de_suma (st : List Calificacion) (c : Calificacion)
    (h : sumaFactores c > 1) :
    (save_calificacion st c).fst = st ∧
    ∃ e, (save_calificacion st c).snd = Except.error e := by
  have h' : sumaFactores (asignar_secuencia st c) > 1 := by
    rw [sumaFactores_asignar]; exact h
  obtain ⟨e, he⟩ := full_clean_error_de_suma _ h'
  simp only [save_calificacion]
  rw [he]
  exact ⟨rfl, e, rfl⟩

theorem save_ok_inv (st : List Calificacion) (c : Calificacion)
    (st' : List Calificacion) (c' : Calificacion)
    (h : save_calificacion st c = (st', Except.ok c')) :
    sumaFactores c' ≤ 1 ∧ c'.factores = c.factores ∧
      c' = asignar_secuencia st c := by
  simp only [save_calificacion] at h
  rcases hf : full_clean_calificacion (asignar_secuencia st c) with e | u
  · rw [hf] at h
    exact absurd (congrArg Prod.snd h) (by simp)
  · cases u
    rw [hf] at h
    have hc : c' = asignar_secuencia st c := by
      have := congrArg Prod.snd h
      simpa using this.symm
    subst hc
    exact ⟨clean_ok_suma _ (full_clean_ok_clean _ hf), factores_asignar st c, rfl⟩

theorem save_error_fst (st : List Calificacion) (c : Calificacion) (e : String)
    (h : (save_calificacion st c).snd = Except.error e) :
    (save_calificacion st c).fst = st := by
  simp only [save_calificacion] at h ⊢
  rcases hf : full_clean_calificacion (asignar_secuencia st c) with e' | u
  · rfl
  · rw [hf] at h
    exact absurd h (by simp)

/-- Claim C1: every persist path of a classification record — the ledger
upsert used by ingestion, the user-triggered `calcular-factores`
normalize action, and a direct save — enforces the factor-sum invariant:
a save whose record has factor sum above 1 fails with a validation error
and leaves the ledger untouched, and every record a successful persist
returns has factor sum at most 1. -/
theorem invariante_suma_factores :
    (∀ (st : List Calificacion) (c : Calificacion), sumaFactores c > 1 →
      (save_calificacion st c).fst = st ∧
      ∃ e, (save_calificacion st c).snd = Except.error e) ∧
    (∀ (st : List Calificacion) (c : Calificacion) (st' : List Calificacion)
      (c' : Calificacion), save_calificacion st c = (st', Except.ok c') →
      sumaFactores c' ≤ 1) ∧
    (∀ (st : List Calificacion) (c : Calificacion) (e : String),
      (calcular_factores_action st c).snd = Except.error e →
      (calcular_factores_action st c).fst = st) ∧
    (∀ (st : List Calificacion) (c : Calificacion) (st' : List Calificacion)
      (c' : Calificacion), calcular_factores_action st c = (st', Except.ok c') →
      sumaFactores c' ≤ 1) ∧
    (∀ (ledger : List Calificacion) (corredor : String) (nowYear : Nat)
      (d : DatosFila) (led : List Calificacion) (c : Calificacion)
      (creado : Bool),
      obtener_o_crear_calificacion ledger corredor nowYear d =
        Except.ok (led, c, creado) → sumaFactores c ≤ 1) := by
  refine ⟨fun st c h => save_error_de_suma st c h,
    fun st c st' c' h => (save_ok_inv st c st' c' h).1, ?_, ?_, ?_⟩
  · intro st c e h
    simp only [calcular_factores_action] at h ⊢
    by_cases htot : (c.factores.foldl (fun t m => t + m) 0) ≤ 0
    · rw [if_pos htot]
    · rw [if_neg htot] at h ⊢
      exact save_error_fst _ _ e h
  · intro st c st' c' h
    simp only [calcular_factores_action] at h
    by_cases htot : (c.factores.foldl (fun t m => t + m) 0) ≤ 0
    · rw [if_pos htot] at h
      exact absurd (congrArg Prod.snd h) (by simp)
    · rw [if_neg htot] at h
      exact (save_ok_inv _ _ _ _ h).1
  · intro ledger corredor nowYear d led c creado h
    simp only [obtener_o_crear_calificacion] at h
    split at h
    · exact absurd h (by simp)
    · generalize (if d.ejercicio = "" then toString nowYear else d.ejercicio) = ejStr at h
      split at h
      · exact absurd h (by simp)
      · split at h
        · split at h
          · exact absurd h (by simp)
          · rename_i ledger' c' heq
            have h2 := h
            simp only [Except.ok.injEq, Prod.mk.injEq] at h2
            have hc : c = c' := h2.2.1.symm
            subst hc
            exact (save_ok_inv _ _ _ _ heq).1
        · split at h
          · split at h
            · exact absurd h (by simp)
            · rename_i ledger' c' heq
              have h2 := h
              simp only [Except.ok.injEq, Prod.mk.injEq] at h2
              have hc : c = c' := h2.2.1.symm
              subst hc
              exact (save_ok_inv _ _ _ _ heq).1
          · exact absurd h (by simp)

/-- Witness for C1: a concrete record whose factors sum to 2 is rejected
by a direct save on the empty ledger, which stays empty. -/
theorem invariante_suma_factores_witness :
    (save_calificacion [] calSumaExcedida).fst = [] ∧
    ∃ e, (save_calificacion [] calSumaExcedida).snd = Except.error e :=
  invariante_suma_factores.1 [] calSumaExcedida (by decide)

theorem mem_secuenciasNumericas (st : List Calificacion) (n : Nat)
    (h : n ∈ secuenciasNumericas st) :
    ∃ c ∈ st, c.secuencia_evento ≠ "" ∧ esDigitos c.secuencia_evento = true ∧
      natDeDigitos c.secuencia_evento = n := by
  unfold secuenciasNumericas at h
  rcases List.mem_filterMap.mp h with ⟨c, hc, hf⟩
  by_cases hcond : c.secuencia_evento ≠ "" ∧ esDigitos c.secuencia_evento
  · rw [if_pos hcond] at hf
    refine ⟨c, hc, hcond.1, by simpa using hcond.2, ?_⟩
    injection hf
  · rw [if_neg hcond] at hf
    exact absurd hf (by simp)

theorem foldl_max_ge_init (l : List Nat) : ∀ a : Nat, a ≤ l.foldl max a := by
  induction l with
  | nil => intro a; exact le_refl a
  | cons b t ih =>
    intro a
    exact le_trans (le_max_left a b) (ih (max a b))

theorem foldl_max_ge_mem (l : List Nat) : ∀ (a n : Nat), n ∈ l → n ≤ l.foldl max a := by
  induction l with
  | nil => intro a n hn; simp at hn
  | cons b t ih =>
    intro a n hn
    rcases List.mem_cons.mp hn with rfl | hnt
    · exact le_trans (le_max_right a n) (foldl_max_ge_init t (max a n))
    · exact ih (max a b) n hnt

theorem esDigitos_ne_vacio (s : String) (h : esDigitos s = true) : s ≠ "" := by
  intro hs
  subst hs
  simp [esDigitos] at h

/-- Claim C7: a record saved without a supplied event sequence is
assigned one more than the current maximum numeric sequence over the
whole ledger (tenant-independent: the assigned value ignores the record's
own `corredor`), 10000 when no record has a numeric sequence; a supplied
purely numeric sequence value passes through the assignment step
verbatim, and a successful save persists exactly the assigned record. -/
theorem asignacion_secuencia_evento :
    (∀ (st : List Calificacion) (c : Calificacion), ledgerBienFormado st →
      c.secuencia_evento = "" →
      (secuenciasNumericas st ≠ [] →
        (asignar_secuencia st c).secuencia_evento =
          toString ((secuenciasNumericas st).foldl max 0 + 1)) ∧
      (secuenciasNumericas st = [] →
        (asignar_secuencia st c).secuencia_evento = "10000")) ∧
    (∀ (st : List Calificacion) (c : Calificacion),
      esDigitos c.secuencia_evento = true → asignar_secuencia st c = c) ∧
    (∀ (st : List Calificacion) (c : Calificacion) (st' : List Calificacion)
      (c' : Calificacion), save_calificacion st c = (st', Except.ok c') →
      c' = asignar_secuencia st c) ∧
    (∀ (st : List Calificacion) (c₁ c₂ : Calificacion),
      c₁.secuencia_evento = "" → c₂.secuencia_evento = "" →
      (asignar_secuencia st c₁).secuencia_evento =
        (asignar_secuencia st c₂).secuencia_evento) := by
  refine ⟨?_, ?_, fun st c st' c' h => (save_ok_inv st c st' c' h).2.2, ?_⟩
  · intro st c hwf hc
    constructor
    · intro hne
      have hge : 10000 ≤ (secuenciasNumericas st).foldl max 0 := by
        obtain ⟨n, hn⟩ := List.exists_mem_of_ne_nil _ hne
        obtain ⟨c₀, hc₀, hne₀, hdig₀, hval₀⟩ := mem_secuenciasNumericas st n hn
        have h10 : 10000 ≤ n := hval₀ ▸ (hwf c₀ hc₀ hne₀).2
        exact le_trans h10 (foldl_max_ge_mem _ 0 n hn)
      have hnz : (secuenciasNumericas st).foldl max 0 ≠ 0 := by omega
      unfold asignar_secuencia
      rw [if_pos hc]
      simp only [siguienteSecuencia]
      rw [if_neg hnz]
    · intro hnil
      unfold asignar_secuencia
      rw [if_pos hc]
      simp only [siguienteSecuencia, hnil]
      rfl
  · intro st c h
    unfold asignar_secuencia
    rw [if_neg (esDigitos_ne_vacio _ h)]
  · intro st c₁ c₂ h₁ h₂
    unfold asignar_secuencia
    rw [if_pos h₁, if_pos h₂]

/-- Witness for C7: on a one-record ledger whose sequence is 10005 a
sequence-less record is assigned 10006; on the empty ledger it is
assigned 10000; a record with the numeric sequence 10005 is untouched. -/
theorem asignacion_secuencia_evento_witness :
    (asignar_secuencia [calEjemplo] calSinSecuencia).secuencia_evento =
      toString ((secuenciasNumericas [calEjemplo]).foldl max 0 + 1) ∧
    (asignar_secuencia [] calSinSecuencia).secuencia_evento = "10000" ∧
    asignar_secuencia [] calEjemplo = calEjemplo :=
  ⟨(asignacion_secuencia_evento.1 [calEjemplo] calSinSecuencia
      (by unfold ledgerBienFormado; decide) (by decide)).1 (by decide),
   (asignacion_secuencia_evento.1 [] calSinSecuencia
      (by unfold ledgerBienFormado; decide) (by decide)).2 (by decide),
   asignacion_secuencia_evento.2.1 [] calEjemplo (by decide)⟩

-- =====================================================================
-- Country-detector lemmas (C8)
-- =====================================================================

theorem foldl_kw_const (t : List Char) (w : ℚ) (kws : List String)
    (h : ∀ kw ∈ kws, containsSub t kw.data = false) :
    ∀ acc : ℚ,
      kws.foldl (fun s kw => if containsSub t kw.data then s + w else s) acc
        = acc := by
  induction kws with
  | nil => intro acc; rfl
  | cons k ks ih =>
    intro acc
    rw [List.foldl_cons, if_neg (by simp [h k (by simp)])]
    exact ih (fun kw hk => h kw (List.mem_cons_of_mem k hk)) acc

theorem foldl_kw_ge (t : List Char) (w : ℚ) (hw : 0 ≤ w) (kws : List String) :
    ∀ acc : ℚ,
      acc ≤ kws.foldl (fun s kw => if containsSub t kw.data then s + w else s) acc := by
  induction kws with
  | nil => intro acc; exact le_refl acc
  | cons k ks ih =>
    intro acc
    rw [List.foldl_cons]
    refine le_trans ?_ (ih _)
    by_cases hk : containsSub t k.data
    · rw [if_pos hk]; linarith
    · rw [if_neg hk]

theorem scorePais_cero (t : List Char) (w wk : ℚ) (kws : List String)
    (h : ∀ kw ∈ kws, containsSub t kw.data = false) :
    scorePais false w kws wk t = 0 := by
  unfold scorePais
  rw [if_neg (by simp), foldl_kw_const t wk kws h 0, add_zero]

theorem scorePais_ge_regex (t : List Char) (w wk : ℚ) (hwk : 0 ≤ wk)
    (kws : List String) : w ≤ scorePais true w kws wk t := by
  unfold scorePais
  rw [if_pos rfl]
  have := foldl_kw_ge t wk hwk kws 0
  linarith

theorem rutAt_head_digit (l : List Char) (h : rutAt l = true) :
    ∃ c ∈ l, c.isDigit = true := by
  rcases l with _ | ⟨d, rest⟩
  · simp [rutAt] at h
  · refine ⟨d, by simp, ?_⟩
    unfold rutAt at h
    exact (Bool.and_eq_true _ _ |>.mp h).1

theorem buscaEn_digit (f : List Char → Bool)
    (hf : ∀ l, f l = true → ∃ c ∈ l, c.isDigit = true) :
    ∀ t, buscaEn f t = true → ∃ c ∈ t, c.isDigit = true := by
  intro t
  induction t with
  | nil => intro h; exact hf [] h
  | cons c rest ih =>
    intro h
    rcases Bool.or_eq_true _ _ |>.mp h with h1 | h2
    · exact hf _ h1
    · obtain ⟨d, hd, hdig⟩ := ih h2
      exact ⟨d, List.mem_cons_of_mem c hd, hdig⟩

theorem pyStripL_nil_all_space (l : List Char) (h : pyStripL l = []) :
    ∀ c ∈ l, isSpacePy c = true := by
  unfold pyStripL at h
  rw [List.reverse_eq_nil_iff] at h
  have hdrop : ∀ c ∈ (l.dropWhile isSpacePy).reverse, isSpacePy c = true :=
    all_of_dropWhile_eq_nil _ _ h
  have hdrop' : ∀ c ∈ l.dropWhile isSpacePy, isSpacePy c = true := by
    intro c hc
    exact hdrop c (List.mem_reverse.mpr hc)
  intro c hc
  rw [← List.takeWhile_append_dropWhile isSpacePy l] at hc
  rcases List.mem_append.mp hc with htake | hdropm
  · exact List.mem_takeWhile_imp htake
  · exact hdrop' c hdropm

theorem digit_no_space (c : Char) (h : c.isDigit = true) :
    isSpacePy c = false := by
  by_contra hs
  rw [Bool.not_eq_false] at hs
  simp only [isSpacePy, decide_eq_true_eq] at hs
  rcases hs with rfl | rfl | rfl | rfl | rfl | rfl <;> simp [Char.isDigit] at h

theorem matchRegexCHL_strip (t : List Char) (h : matchRegexCHL t = true) :
    pyStripL t ≠ [] := by
  intro hnil
  obtain ⟨c, hc, hdig⟩ := buscaEn_digit rutAt rutAt_head_digit t h
  have := pyStripL_nil_all_space t hnil c hc
  rw [digit_no_space c hdig] at this
  exact absurd this (by simp)

/-- Claim C8 (amended): country detection returns `(None, 0.0)` on a row
whose text matches no country regex and contains no keyword; it returns
no country whenever the best aggregate score is below the 0.3 threshold;
and on a row whose text contains a Chilean-RUT-shaped substring the CHL
score is at least 0.7, and the detector returns `CHL` with that score
whenever no other country scores strictly higher (which another country
can — see the counterexample). -/
theorem detector_pais_heuristica :
    (∀ fila : List PyVal,
      matchRegexCHL (textoDeFila fila) = false →
      matchRegexCOL (textoDeFila fila) = false →
      matchRegexPER (textoDeFila fila) = false →
      (∀ kw ∈ keywordsCHL ++ keywordsCOL ++ keywordsPER,
        containsSub (textoDeFila fila) kw.data = false) →
      detectar_pais fila = (Option.none, 0)) ∧
    (∀ fila : List PyVal, (detectar_pais fila).snd < 3/10 →
      (detectar_pais fila).fst = Option.none) ∧
    (∀ fila : List PyVal, matchRegexCHL (textoDeFila fila) = true →
      7/10 ≤ puntajeCHL (textoDeFila fila) ∧
      (puntajeCOL (textoDeFila fila) ≤ puntajeCHL (textoDeFila fila) →
       puntajePER (textoDeFila fila) ≤ puntajeCHL (textoDeFila fila) →
       detectar_pais fila =
         (some "CHL", puntajeCHL (textoDeFila fila)))) := by
  refine ⟨?_, ?_, ?_⟩
  · intro fila h1 h2 h3 hkw
    have p1 : puntajeCHL (textoDeFila fila) = 0 := by
      unfold puntajeCHL; rw [h1]
      exact scorePais_cero _ _ _ _
        (fun kw hk => hkw kw (by simp [hk]))
    have p2 : puntajeCOL (textoDeFila fila) = 0 := by
      unfold puntajeCOL; rw [h2]
      exact scorePais_cero _ _ _ _
        (fun kw hk => hkw kw (by simp [hk]))
    have p3 : puntajePER (textoDeFila fila) = 0 := by
      unfold puntajePER; rw [h3]
      exact scorePais_cero _ _ _ _
        (fun kw hk => hkw kw (by simp [hk]))
    simp only [detectar_pais]
    by_cases hstrip : pyStripL (textoDeFila fila) = []
    · rw [if_pos hstrip]
    · rw [if_neg hstrip]
      simp only [scoresPaises, mejorPuntaje, List.foldl_cons, List.foldl_nil,
        p1, p2, p3]
      norm_num
  · intro fila h
    revert h
    simp only [detectar_pais]
    by_cases hstrip : pyStripL (textoDeFila fila) = []
    · rw [if_pos hstrip]; intro _; rfl
    · rw [if_neg hstrip]
      by_cases hm : (mejorPuntaje (scoresPaises (textoDeFila fila))).snd < 3/10
      · rw [if_pos hm]; intro _; rfl
      · rw [if_neg hm]; intro h; exact absurd h hm
  · intro fila hmatch
    have hCHL : 7/10 ≤ puntajeCHL (textoDeFila fila) := by
      unfold puntajeCHL; rw [hmatch]
      exact scorePais_ge_regex _ _ _ (by norm_num) _
    refine ⟨hCHL, ?_⟩
    intro hcol hper
    have hstrip := matchRegexCHL_strip _ hmatch
    simp only [detectar_pais]
    rw [if_neg hstrip]
    have hm : mejorPuntaje (scoresPaises (textoDeFila fila)) =
        (some "CHL", puntajeCHL (textoDeFila fila)) := by
      simp only [scoresPaises, mejorPuntaje, List.foldl_cons, List.foldl_nil]
      rw [if_pos (by linarith : puntajeCHL (textoDeFila fila) > 0),
        if_neg (not_lt.mpr hcol), if_neg (not_lt.mpr hper)]
    rw [hm]
    rw [if_neg (not_lt.mpr (le_trans (by norm_num) hCHL))]

/-- Witness for C8: a row with nothing but a Chilean-shaped RUT resolves
to CHL with score at least 0.7, and a row with no match at all resolves
to `(None, 0.0)`. -/
theorem detector_pais_heuristica_witness :
    detectar_pais [PyVal.str "12.345.678-9"] =
      (some "CHL", puntajeCHL (textoDeFila [PyVal.str "12.345.678-9"])) ∧
    7/10 ≤ puntajeCHL (textoDeFila [PyVal.str "12.345.678-9"]) ∧
    detectar_pais [PyVal.str "HELLO"] = (Option.none, 0) :=
  ⟨(detector_pais_heuristica.2.2 [PyVal.str "12.345.678-9"] (by decide)).2
      (by decide) (by decide),
   (detector_pais_heuristica.2.2 [PyVal.str "12.345.678-9"] (by decide)).1,
   detector_pais_heuristica.1 [PyVal.str "HELLO"] (by decide) (by decide)
     (by decide) (by decide)⟩

/-- Claim C8 counterexample: a row that does contain a Chilean-RUT-shaped
string but whose text also carries Colombian keywords and identifiers is
resolved as COL (score 1.8), not CHL, refuting the unconditional "returns
CHL with score at least 0.7". -/
theorem detector_pais_rut_no_siempre_chl :
    matchRegexCHL (textoDeFila
      [PyVal.str "12.345.678-9", PyVal.str "COLOMBIA BOGOTA NIT 12345678901"])
      = true ∧
    detectar_pais
      [PyVal.str "12.345.678-9", PyVal.str "COLOMBIA BOGOTA NIT 12345678901"]
      = (some "COL", 9/5) := by
  constructor
  · decide
  · decide

-- =====================================================================
-- PDF parser lemmas (C9)
-- =====================================================================

theorem foldl_append_filter (g : String → List String) (P : String → Bool) :
    ∀ (lines : List String) (rows : List (List String)),
      lines.foldl (fun rows line => if P line then rows ++ [g line] else rows)
          rows
        = rows ++ ((lines.filter P).map g) := by
  intro lines
  induction lines with
  | nil => intro rows; simp
  | cons l rest ih =>
    intro rows
    rw [List.foldl_cons]
    by_cases hl : P l
    · rw [if_pos hl, ih, List.filter_cons, if_pos (by simpa using hl)]
      simp
    · rw [if_neg hl, ih, List.filter_cons, if_neg (by simpa using hl)]

theorem foldl_append_join (F : String → List (List String)) :
    ∀ (pages : List String) (acc : List (List String)),
      pages.foldl (fun acc text => acc ++ F text) acc
        = acc ++ (pages.map F).join := by
  intro pages
  induction pages with
  | nil => intro acc; simp
  | cons p rest ih =>
    intro acc
    rw [List.foldl_cons, ih]
    simp

/-- Claim C9 (amended): PDF extraction keeps exactly the lines that
contain a literal `|` — in page order, each split on `|` with every cell
stripped — and drops every other line: there is no whitespace-run
fallback, no whole-line fallback, and the parser itself does no padding
(the downstream `pd.DataFrame(rows)` call is what pads ragged rows, with
NaN). -/
theorem parse_pdf_solo_lineas_con_barra (pages : List String) :
    parse_pdf_text_to_rows pages =
      (pages.map (fun text =>
        ((pySplit '\n' text).filter (fun line => line.data.contains '|')).map
          (fun line => (pySplit '|' line).map pyStrip))).join := by
  unfold parse_pdf_text_to_rows
  have hstep : (fun (rows : List (List String)) (text : String) =>
      (pySplit '\n' text).foldl
        (fun rows line =>
          if line.data.contains '|' then
            rows ++ [(pySplit '|' line).map pyStrip]
          else rows)
        rows) =
      (fun rows text => rows ++
        (((pySplit '\n' text).filter (fun line => line.data.contains '|')).map
          (fun line => (pySplit '|' line).map pyStrip))) := by
    funext rows text
    exact foldl_append_filter _ _ _ rows
  rw [hstep, foldl_append_join]
  simp

/-- Claim C9 counterexample: in the page text `"a  b\nc|d"` the line
`"a  b"` — separable by its two-space run per the claim — is dropped
because it contains no `|`, and a page consisting only of that line
yields no rows at all; only the `|` line survives, unpadded. -/
theorem parse_pdf_linea_sin_barra_descartada :
    parse_pdf_text_to_rows ["a  b\nc|d"] = [["c", "d"]] ∧
    parse_pdf_text_to_rows ["a  b"] = [] := by
  constructor
  · decide
  · decide

/-- Claim C3 (amended): when the row loop of either orchestrator runs to
completion, the job gets the finish timestamp, the elapsed seconds, the
aggregated summary counters and the full per-row error list — but the
final processing state is unconditionally `"ok"` (services.py lines 498
and 639), not `ok`-iff-no-rejections. -/
theorem finalizacion_orquestador (started finished : ℚ) (corredor : String)
    (nowYear : Nat) (archivo : ArchivoCarga) (df : Df) (st0 : EstadoCarga) :
    ((procesar_archivo_carga_factores started finished corredor nowYear
        archivo df st0).fst.finished_at = some finished ∧
     (procesar_archivo_carga_factores started finished corredor nowYear
        archivo df st0).fst.tiempo_procesamiento_seg =
        some (finished - started) ∧
     (procesar_archivo_carga_factores started finished corredor nowYear
        archivo df st0).fst.estado_proceso = "ok" ∧
     (procesar_archivo_carga_factores started finished corredor nowYear
        archivo df st0).fst.resumen_proceso = some
        ⟨(procesar_archivo_carga_factores started finished corredor nowYear
            archivo df st0).snd.total_registros,
         (procesar_archivo_carga_factores started finished corredor nowYear
            archivo df st0).snd.nuevos,
         (procesar_archivo_carga_factores started finished corredor nowYear
            archivo df st0).snd.actualizados,
         (procesar_archivo_carga_factores started finished corredor nowYear
            archivo df st0).snd.rechazados, Option.none⟩ ∧
     (procesar_archivo_carga_factores started finished corredor nowYear
        archivo df st0).fst.errores_por_fila =
        (procesar_archivo_carga_factores started finished corredor nowYear
          archivo df st0).snd.errores) ∧
    ((procesar_archivo_carga_monto started finished corredor nowYear
        archivo df st0).fst.finished_at = some finished ∧
     (procesar_archivo_carga_monto started finished corredor nowYear
        archivo df st0).fst.tiempo_procesamiento_seg =
        some (finished - started) ∧
     (procesar_archivo_carga_monto started finished corredor nowYear
        archivo df st0).fst.estado_proceso = "ok" ∧
     (procesar_archivo_carga_monto started finished corredor nowYear
        archivo df st0).fst.resumen_proceso = some
        ⟨(procesar_archivo_carga_monto started finished corredor nowYear
            archivo df st0).snd.total_registros,
         (procesar_archivo_carga_monto started finished corredor nowYear
            archivo df st0).snd.nuevos,
         (procesar_archivo_carga_monto started finished corredor nowYear
            archivo df st0).snd.actualizados,
         (procesar_archivo_carga_monto started finished corredor nowYear
            archivo df st0).snd.rechazados, Option.none⟩ ∧
     (procesar_archivo_carga_monto started finished corredor nowYear
        archivo df st0).fst.errores_por_fila =
        (procesar_archivo_carga_monto started finished corredor nowYear
          archivo df st0).snd.errores) :=
  ⟨⟨rfl, rfl, rfl, rfl, rfl⟩, ⟨rfl, rfl, rfl, rfl, rfl⟩⟩

/-- Claim C3 counterexample: a FACTOR run over a one-row dataframe whose
row is rejected (missing identifier and instrument) completes with one
rejection yet the persisted final state is `"ok"`, not `"error"` as the
claim requires. -/
theorem estado_final_ok_con_rechazos :
    (procesar_archivo_carga_factores 0 10 "c" 2026 {} dfFilaRechazada
      (estadoInicial [] [])).fst.resumen_proceso =
      some ⟨1, 0, 0, 1, Option.none⟩ ∧
    (procesar_archivo_carga_factores 0 10 "c" 2026 {} dfFilaRechazada
      (estadoInicial [] [])).fst.estado_proceso = "ok" ∧
    (procesar_archivo_carga_factores 0 10 "c" 2026 {} dfFilaRechazada
      (estadoInicial [] [])).fst.estado_proceso ≠ "error" := by
  refine ⟨by decide, by decide, by decide⟩

/-- Claim C10: in a MONTO-mode ingestion, a row whose twelve parsed
factor values are each at most 1 and whose total is at most 1.0001 fails
the amount heuristic: it is rejected with the validation message that the
values do not look like amounts, the ledger and the new/updated counters
are untouched, the rejected counter is incremented, the error entry
records the row, and the loop continues with the next row. -/
theorem rechazo_fila_no_monto (corredor : String) (nowYear : Nat)
    (st : EstadoCarga) (idx : Nat) (fila : Fila) (rest : List Fila)
    (hall : ((extraerFactoresFila fila).all (fun v => v.getD 0 ≤ 1)) = true)
    (hsum : suma_opcionales (extraerFactoresFila fila) ≤ 10001/10000) :
    (paso_fila_monto corredor nowYear st idx fila).ledger = st.ledger ∧
    (paso_fila_monto corredor nowYear st idx fila).rechazados =
      st.rechazados + 1 ∧
    (paso_fila_monto corredor nowYear st idx fila).nuevos = st.nuevos ∧
    (paso_fila_monto corredor nowYear st idx fila).actualizados =
      st.actualizados ∧
    (paso_fila_monto corredor nowYear st idx fila).total_registros =
      st.total_registros + 1 ∧
    (paso_fila_monto corredor nowYear st idx fila).errores =
      st.errores ++ [⟨idx + 1, msgNoParecenMontos, fila⟩] ∧
    procesar_filas_monto corredor nowYear st idx (fila :: rest) =
      procesar_filas_monto corredor nowYear
        (paso_fila_monto corredor nowYear st idx fila) (idx + 1) rest := by
  have hmode : es_modo_monto (extraerFactoresFila fila) = false := by
    unfold es_modo_monto
    have h1 : (extraerFactoresFila fila).any
        (fun v => match v with
          | some x => decide (x > 1)
          | Option.none => false) = false := by
      rw [List.any_eq_false]
      intro x hx
      cases x with
      | none => simp
      | some v =>
        have hv := List.all_eq_true.mp hall (some v) hx
        simp only [Option.getD_some, decide_eq_true_eq] at hv
        simp [not_lt.mpr hv]
    rw [h1, Bool.false_or, decide_eq_false_iff_not]
    exact not_lt.mpr hsum
  refine ⟨?_, ?_, ?_, ?_, ?_, ?_, rfl⟩ <;>
    simp [paso_fila_monto, cabeceraFila, aplicarResultadoFila, hmode]

/-- Witness for C10 at a concrete MONTO row whose single factor is 0.5. -/
theorem rechazo_fila_no_monto_witness :
    (paso_fila_monto "c" 2026 (estadoInicial [] []) 0 filaMontoPequena).ledger
      = (estadoInicial [] []).ledger ∧
    (paso_fila_monto "c" 2026 (estadoInicial [] []) 0
        filaMontoPequena).rechazados = (estadoInicial [] []).rechazados + 1 ∧
    (paso_fila_monto "c" 2026 (estadoInicial [] []) 0 filaMontoPequena).nuevos
      = (estadoInicial [] []).nuevos ∧
    (paso_fila_monto "c" 2026 (estadoInicial [] []) 0
        filaMontoPequena).actualizados = (estadoInicial [] []).actualizados ∧
    (paso_fila_monto "c" 2026 (estadoInicial [] []) 0
        filaMontoPequena).total_registros =
      (estadoInicial [] []).total_registros + 1 ∧
    (paso_fila_monto "c" 2026 (estadoInicial [] []) 0 filaMontoPequena).errores
      = (estadoInicial [] []).errores ++
        [⟨0 + 1, msgNoParecenMontos, filaMontoPequena⟩] ∧
    procesar_filas_monto "c" 2026 (estadoInicial [] []) 0 [filaMontoPequena] =
      procesar_filas_monto "c" 2026
        (paso_fila_monto "c" 2026 (estadoInicial [] []) 0 filaMontoPequena)
        (0 + 1) [] :=
  rechazo_fila_no_monto "c" 2026 (estadoInicial [] []) 0 filaMontoPequena []
    (by decide) (by decide)

/-- Claim C4 evaluated: the happy-path CSV scenario (empty ledger, two
data rows with factor sums 0.5 and 1.3) does not behave as specified —
both rows are rejected, because the upsert's `defaults` dict carries the
key `archivo_carga` while the model's field is `archivo_origen`, so
Django's `update_or_create` raises a FieldError on every create.  The
run ends with `nuevos = 0`, `rechazados = 2`, an empty ledger, and state
`"ok"`. -/
theorem escenario_csv_ambas_filas_rechazadas :
    (procesar_archivo_carga_factores 0 10 "corr1" 2026 {} dfEscenarioCsv
      (estadoInicial [] [])).fst.resumen_proceso =
      some ⟨2, 0, 0, 2, Option.none⟩ ∧
    (procesar_archivo_carga_factores 0 10 "corr1" 2026 {} dfEscenarioCsv
      (estadoInicial [] [])).fst.estado_proceso = "ok" ∧
    (procesar_archivo_carga_factores 0 10 "corr1" 2026 {} dfEscenarioCsv
      (estadoInicial [] [])).snd.ledger = [] ∧
    ((procesar_archivo_carga_factores 0 10 "corr1" 2026 {} dfEscenarioCsv
      (estadoInicial [] [])).snd.errores.map (fun e => e.error)) =
      ["FieldError: Invalid field name(s) for model CalificacionTributaria: archivo_carga",
       "FieldError: Invalid field name(s) for model CalificacionTributaria: archivo_carga"] := by
  refine ⟨by decide, by decide, by decide, by decide⟩
